import Mathlib

/-!
Shallow embedding of the `yatube` blogging application's post/comment/follow
core: the content store, the paginator helper `get_page_obj`
(posts/utils.py), and the request handlers of posts/views.py.  Machinery the
views call that lives outside the provided sources (the Django ORM, the
`login_required` decorator, `cache_page`) is embedded by its documented
contract; parts of this repository that are absent from the sources
(posts/models.py, posts/forms.py) are modelled from the specification and
marked as such on their definitions.
-/

namespace Yatube

/-- `POSTS_COUNT = 10` in posts/views.py: the fixed page size. -/
def POSTS_COUNT : Nat := 10

/-- A user row: identity is external, referenced by id; `username` is unique. -/
structure User where
  id : Nat
  username : String
  deriving Repr, DecidableEq

/-- A community: `slug` is the unique URL key. -/
structure Group where
  id : Nat
  title : String
  slug : String
  description : String
  deriving Repr, DecidableEq

/-- A post row: `pub_date` is the creation timestamp (a natural-number clock),
`author` a user id, `group` an optional group id, `image` an optional stored
file path. -/
structure Post where
  id : Nat
  text : String
  pub_date : Nat
  author : Nat
  group : Option Nat
  image : Option String
  deriving Repr, DecidableEq

/-- A comment row referencing its author and post by id. -/
structure Comment where
  id : Nat
  text : String
  author : Nat
  post : Nat
  deriving Repr, DecidableEq

/-- A follow relation row: `user` follows `author`. -/
structure Follow where
  user : Nat
  author : Nat
  deriving Repr, DecidableEq

/-- The content store: all rows owned by the application. -/
structure Store where
  users : List User
  groups : List Group
  posts : List Post
  comments : List Comment
  follows : List Follow
  deriving Repr, DecidableEq

/-- HTTP method of a request, as the views distinguish them. -/
inductive Method where
  | get
  | post
  deriving Repr, DecidableEq

/-- Outcome of a request handler: a rendered template with its context, an
HTTP redirect, an HTTP 404 page, or an uncaught exception propagating out of
the handler (a server fault). -/
inductive Resp (α : Type) where
  | rendered : α → Resp α
  | redirect : String → Resp α
  | notFound : Resp α
  | fault : String → Resp α
  deriving Repr, DecidableEq

/-- `User.objects.get(username=...)` resolution: the unique user with the
given username, if any. -/
def findUser (s : Store) (username : String) : Option User :=
  s.users.find? (fun u => u.username == username)

/-- `Group` lookup by slug. -/
def findGroup (s : Store) (slug : String) : Option Group :=
  s.groups.find? (fun g => g.slug == slug)

/-- `Post.objects.get(pk=...)` resolution. -/
def findPost (s : Store) (pid : Nat) : Option Post :=
  s.posts.find? (fun p => p.id == pid)

/-- Whether a Follow row for the pair exists in the store. -/
def followExists (s : Store) (uid aid : Nat) : Bool :=
  s.follows.any (fun f => f.user == uid && f.author == aid)

/-- Newest-first comparison on posts: `p` precedes `q` when `p.pub_date` is
at least `q.pub_date`. -/
def pubDateGe (p q : Post) : Prop := q.pub_date ≤ p.pub_date

instance : DecidableRel pubDateGe := fun p q => Nat.decLe q.pub_date p.pub_date

instance : IsTotal Post pubDateGe :=
  ⟨fun p q => Nat.le_total q.pub_date p.pub_date⟩

instance : IsTrans Post pubDateGe :=
  ⟨fun _ _ _ hpq hqr => Nat.le_trans hqr hpq⟩

/-- `order_by('-pub_date')` in `index`; for the filtered feeds the views rely
on the `Post` model manager's default ordering.  Modelled from the spec: the
`Post` model's Meta ordering (posts/models.py is not under src/) gives every
feed "the same ordering", creation timestamp descending. -/
def orderByPubDateDesc (l : List Post) : List Post :=
  l.insertionSort pubDateGe

/-- Django `Paginator.num_pages`: ceiling of `count / perPage`, but at least
one page even for an empty object list. -/
def numPages (count perPage : Nat) : Nat :=
  max 1 ((count + perPage - 1) / perPage)

/-- Django `Paginator.get_page` page-number resolution: a missing or
non-integer `page` query parameter yields page 1; a number below 1 or beyond
the last page yields the last page. -/
def getPageNumber (count perPage : Nat) (pageReq : Option Nat) : Nat :=
  match pageReq with
  | none => 1
  | some n => if n < 1 ∨ numPages count perPage < n then numPages count perPage else n

/-- `get_page_obj(post_list, posts_count, request)` from posts/utils.py: the
object list of the page selected by the request's `page` parameter. -/
def get_page_obj {α : Type} (post_list : List α) (posts_count : Nat)
    (page : Option Nat) : List α :=
  let p := getPageNumber post_list.length posts_count page
  (post_list.drop ((p - 1) * posts_count)).take posts_count

/-- Context rendered by the `index` and `follow_index` templates. -/
structure IndexCtx where
  page_obj : List Post
  deriving Repr, DecidableEq

/-- Context rendered by the group page. -/
structure GroupCtx where
  group : Group
  page_obj : List Post
  deriving Repr, DecidableEq

/-- Context rendered by the profile page. -/
structure ProfileCtx where
  author : User
  page_obj : List Post
  following : Bool
  deriving Repr, DecidableEq

/-- Context rendered by the post-detail page. -/
structure DetailCtx where
  post : Post
  comments : List Comment
  deriving Repr, DecidableEq

/-- The data bound into a `PostForm`. -/
structure PostFormData where
  text : String
  group : Option Nat
  image : Option String
  deriving Repr, DecidableEq

/-- The data bound into a `CommentForm`. -/
structure CommentFormData where
  text : String
  deriving Repr, DecidableEq

/-- Context rendered by `create_post.html` for the create view. -/
structure CreateCtx where
  form : PostFormData
  deriving Repr, DecidableEq

/-- Context rendered by `create_post.html` for the edit view. -/
structure EditCtx where
  form : PostFormData
  post_id : Nat
  is_edit : Bool
  deriving Repr, DecidableEq

/-- Modelled from the spec: `PostForm.is_valid` — `createPost` "fails with
`ValidationError` if `text` is empty" (posts/forms.py is not under src/). -/
def postFormValid (f : PostFormData) : Bool := f.text != ""

/-- Modelled from the spec: `CommentForm.is_valid` — `createComment` "fails
with `ValidationError` on empty text" (posts/forms.py is not under src/). -/
def commentFormValid (f : CommentFormData) : Bool := f.text != ""

/-- The `login_required` redirect target: the login URL with the originally
requested path as the `next` parameter (contract of the decorator; the
concrete `/auth/login/` prefix is asserted by tests/test_urls.py and
tests/test_forms.py). -/
def loginUrl (dest : String) : String := "/auth/login/?next=" ++ dest

/-- URL of a profile page. -/
def profileUrl (username : String) : String := "/profile/" ++ username ++ "/"

/-- URL of a post's detail page. -/
def postDetailUrl (pid : Nat) : String := "/posts/" ++ toString pid ++ "/"

/-- URL of a post's edit page. -/
def postEditUrl (pid : Nat) : String := "/posts/" ++ toString pid ++ "/edit/"

/-- URL of a post's comment action. -/
def addCommentUrl (pid : Nat) : String := "/posts/" ++ toString pid ++ "/comment/"

/-- URL of the create-post page. -/
def postCreateUrl : String := "/create/"

/-- URL of the follow action on a profile. -/
def profileFollowUrl (username : String) : String :=
  "/profile/" ++ username ++ "/follow/"

/-- URL of the unfollow action on a profile. -/
def profileUnfollowUrl (username : String) : String :=
  "/profile/" ++ username ++ "/unfollow/"

/-- The object list the `index` view computes for a request:
`Post.objects.all().order_by('-pub_date')` paginated by `get_page_obj`. -/
def index_page_obj (s : Store) (page : Option Nat) : List Post :=
  get_page_obj (orderByPubDateDesc s.posts) POSTS_COUNT page

/-- The `index` view body (the handler inside the `cache_page` wrapper). -/
def index (s : Store) (page : Option Nat) : Resp IndexCtx :=
  .rendered ⟨index_page_obj s page⟩

/-- The object list of a group's feed: `group.posts.all()` (the model
manager's default newest-first ordering) paginated. -/
def group_page_obj (s : Store) (g : Group) (page : Option Nat) : List Post :=
  get_page_obj (orderByPubDateDesc (s.posts.filter (fun p => p.group == some g.id)))
    POSTS_COUNT page

/-- The object list of a profile's feed:
`Post.objects.filter(author=author)` paginated. -/
def profile_page_obj (s : Store) (a : User) (page : Option Nat) : List Post :=
  get_page_obj (orderByPubDateDesc (s.posts.filter (fun p => p.author == a.id)))
    POSTS_COUNT page

/-- The object list of the follow feed:
`Post.objects.filter(author__following__user=request.user)` paginated. -/
def follow_page_obj (s : Store) (u : User) (page : Option Nat) : List Post :=
  get_page_obj (orderByPubDateDesc (s.posts.filter (fun p =>
    s.follows.any (fun f => f.user == u.id && f.author == p.author))))
    POSTS_COUNT page

/-- The `group_posts` view: `get_object_or_404(Group, slug=slug)` surfaces a
404 page for an unknown slug; otherwise the group's posts are paginated. -/
def group_posts (s : Store) (slug : String) (page : Option Nat) : Resp GroupCtx :=
  match findGroup s slug with
  | none => .notFound
  | some g => .rendered ⟨g, group_page_obj s g page⟩

/-- The `profile` view.  `User.objects.get(username=username)` raises an
uncaught `DoesNotExist` for an unknown username, and
`Follow.objects.filter(user=request.user, author=author)` raises an uncaught
`TypeError` when `request.user` is anonymous (an `AnonymousUser` cannot be
coerced to a user id); otherwise the author's posts are paginated and the
`following` flag reports whether the Follow row exists. -/
def profile (s : Store) (session : Option User) (username : String)
    (page : Option Nat) : Resp ProfileCtx :=
  match findUser s username with
  | none => .fault "User.DoesNotExist"
  | some author =>
    match session with
    | none => .fault "TypeError"
    | some u =>
      .rendered ⟨author, profile_page_obj s author page,
        followExists s u.id author.id⟩

/-- The `post_detail` view: `Post.objects.get(pk=post_id)` raises an uncaught
`DoesNotExist` for an unknown id; otherwise the post and its comments are
rendered. -/
def post_detail (s : Store) (pid : Nat) : Resp DetailCtx :=
  match findPost s pid with
  | none => .fault "Post.DoesNotExist"
  | some post =>
    .rendered ⟨post, s.comments.filter (fun c => c.post == post.id)⟩

/-- The `post_create` view (`login_required`): anonymous requests are
redirected to the login URL; a GET or an invalid form re-renders the form;
a valid POST saves a new post owned by the requester and redirects to their
profile.  `newId` and `now` stand for the store-assigned primary key and the
creation timestamp. -/
def post_create (s : Store) (session : Option User) (method : Method)
    (form : PostFormData) (newId now : Nat) : Resp CreateCtx × Store :=
  match session with
  | none => (.redirect (loginUrl postCreateUrl), s)
  | some u =>
    if method != Method.post || !(postFormValid form) then
      (.rendered ⟨form⟩, s)
    else
      (.redirect (profileUrl u.username),
       { s with posts := s.posts ++ [⟨newId, form.text, now, u.id, form.group, form.image⟩] })

/-- The `post_edit` view (`login_required`): anonymous requests are
redirected to the login URL; an unknown post id raises an uncaught
`DoesNotExist`; a requester other than the author is redirected to the
post's detail page before any mutation; a GET or an invalid form re-renders
the form; a valid POST by the author saves the edited fields and redirects
to the detail page. -/
def post_edit (s : Store) (session : Option User) (pid : Nat) (method : Method)
    (form : PostFormData) : Resp EditCtx × Store :=
  match session with
  | none => (.redirect (loginUrl (postEditUrl pid)), s)
  | some u =>
    match findPost s pid with
    | none => (.fault "Post.DoesNotExist", s)
    | some post =>
      if post.author != u.id then
        (.redirect (postDetailUrl pid), s)
      else if method != Method.post || !(postFormValid form) then
        (.rendered ⟨form, pid, true⟩, s)
      else
        let updated : Post :=
          { post with
            text := form.text
            group := form.group
            image := match form.image with
                     | some img => some img
                     | none => post.image }
        (.redirect (postDetailUrl pid),
         { s with posts := s.posts.map (fun q => if q.id == pid then updated else q) })

/-- The `add_comment` view (`login_required`): anonymous requests are
redirected to the login URL; an unknown post id raises an uncaught
`DoesNotExist`; a valid form saves a comment; in every non-faulting case the
handler redirects to the post's detail page — an invalid form is silently
dropped, never re-rendered. -/
def add_comment (s : Store) (session : Option User) (pid : Nat)
    (form : CommentFormData) (newId : Nat) : Resp Unit × Store :=
  match session with
  | none => (.redirect (loginUrl (addCommentUrl pid)), s)
  | some u =>
    match findPost s pid with
    | none => (.fault "Post.DoesNotExist", s)
    | some post =>
      if commentFormValid form then
        (.redirect (postDetailUrl pid),
         { s with comments := s.comments ++ [⟨newId, form.text, u.id, post.id⟩] })
      else
        (.redirect (postDetailUrl pid), s)

/-- The `follow_index` view (`login_required`): the posts of the authors the
requester follows, paginated. -/
def follow_index (s : Store) (session : Option User) (page : Option Nat) :
    Resp IndexCtx :=
  match session with
  | none => .redirect (loginUrl "/follow/")
  | some u => .rendered ⟨follow_page_obj s u page⟩

/-- Modelled from the spec: saving a `Follow` row enforces the Content
Store's relational invariants — "pair unique — a user cannot follow the same
author twice, and a user cannot follow themself"; a violating save "fails
with `ConflictError`", creating no row (posts/models.py, which carries the
constraints, is not under src/). -/
def followSave (s : Store) (f : Follow) : Except String Store :=
  if f.user == f.author || s.follows.any (fun g => g.user == f.user && g.author == f.author) then
    .error "ConflictError"
  else
    .ok { s with follows := s.follows ++ [f] }

/-- The `profile_follow` view (`login_required`): builds a Follow row for
(requester, author) and saves it; the save's constraint failure propagates
out of the handler; on success it redirects to the author's profile. -/
def profile_follow (s : Store) (session : Option User) (username : String) :
    Resp Unit × Store :=
  match session with
  | none => (.redirect (loginUrl (profileFollowUrl username)), s)
  | some u =>
    match findUser s username with
    | none => (.fault "User.DoesNotExist", s)
    | some author =>
      match followSave s ⟨u.id, author.id⟩ with
      | .error e => (.fault e, s)
      | .ok s2 => (.redirect (profileUrl username), s2)

/-- The `profile_unfollow` view (`login_required`):
`Follow.objects.filter(user=..., author=...).delete()` removes every matching
row — zero or one — and never errors; then redirects to the profile. -/
def profile_unfollow (s : Store) (session : Option User) (username : String) :
    Resp Unit × Store :=
  match session with
  | none => (.redirect (loginUrl (profileUnfollowUrl username)), s)
  | some u =>
    match findUser s username with
    | none => (.fault "User.DoesNotExist", s)
    | some author =>
      (.redirect (profileUrl username),
       { s with follows :=
          s.follows.filter (fun f => !(f.user == u.id && f.author == author.id)) })

/-- One cached rendered site-feed response: the page key it was stored
under, the time it was stored, and the object list served. -/
structure CacheEntry where
  key : Option Nat
  storedAt : Nat
  page_obj : List Post
  deriving Repr, DecidableEq

/-- The response cache for the site feed, keyed by page. -/
abbrev Cache := List CacheEntry

/-- Cache lookup by page key. -/
def cacheLookup (c : Cache) (key : Option Nat) : Option CacheEntry :=
  c.find? (fun e => e.key == key)

/-- `@cache_page(timeout=20, key_prefix='index_page')` wrapped around
`index` (contract of the framework decorator): a cached response younger
than 20 seconds is served as-is; otherwise the feed is recomputed from the
store and cached at the current time. -/
def cached_index (s : Store) (c : Cache) (now : Nat) (page : Option Nat) :
    List Post × Cache :=
  match cacheLookup c page with
  | some e =>
    if now < e.storedAt + 20 then (e.page_obj, c)
    else
      let resp := index_page_obj s page
      (resp, ⟨page, now, resp⟩ :: c.filter (fun e2 => e2.key != page))
  | none =>
    let resp := index_page_obj s page
    (resp, ⟨page, now, resp⟩ :: c.filter (fun e2 => e2.key != page))

/-- `post.delete()`: removes the post row; its comments cascade. -/
def deletePost (s : Store) (pid : Nat) : Store :=
  { s with
    posts := s.posts.filter (fun p => p.id != pid)
    comments := s.comments.filter (fun c => c.post != pid) }

/-- A small concrete store used to instantiate the theorems: user `auth`
(id 1) authored post 1 in group `testslug`; user `bob` (id 2) exists and is
followed by nobody. -/
def demoStore : Store where
  users := [⟨1, "auth"⟩, ⟨2, "bob"⟩]
  groups := [⟨1, "Test group", "testslug", "d"⟩]
  posts := [⟨1, "t", 0, 1, some 1, none⟩]
  comments := []
  follows := []

/-- Twelve posts, for exercising the paginator fixture of the spec. -/
def twelvePosts : List Post :=
  (List.range 12).map (fun i => ⟨i, "t", i, 1, none, none⟩)

/-- C2: with exactly 12 posts and page size 10, the paginated feed returns
10 items for page 1 and exactly 2 items — not 3 — for page 2. -/
theorem c2_paginator_twelve (l : List Post) (h : l.length = 12) :
    (get_page_obj l POSTS_COUNT (some 1)).length = 10 ∧
    (get_page_obj l POSTS_COUNT (some 2)).length = 2 ∧
    (get_page_obj l POSTS_COUNT (some 2)).length ≠ 3 := by
  refine ⟨?_, ?_, ?_⟩ <;>
    · simp [get_page_obj, getPageNumber, numPages, POSTS_COUNT, h]

/-- C2 witness: a literal 12-post fixture evaluated through the theorem. -/
theorem c2_paginator_twelve_witness :
    twelvePosts.length = 12 ∧
    ((get_page_obj twelvePosts POSTS_COUNT (some 1)).length = 10 ∧
     (get_page_obj twelvePosts POSTS_COUNT (some 2)).length = 2 ∧
     (get_page_obj twelvePosts POSTS_COUNT (some 2)).length ≠ 3) :=
  ⟨rfl, c2_paginator_twelve twelvePosts rfl⟩

/-- C3 (code bug in the repository): only `group_posts` surfaces a 404 page
for an unknown key; `profile`, `post_detail`, `post_edit` and `add_comment`
reach the store with a bare `.get` and let `DoesNotExist` escape the handler
as a server fault instead of a 404. -/
theorem c3_unknown_key_divergence :
    group_posts demoStore "missing" none = .notFound ∧
    profile demoStore (some ⟨1, "auth"⟩) "ghost" none = .fault "User.DoesNotExist" ∧
    post_detail demoStore 99 = .fault "Post.DoesNotExist" ∧
    post_edit demoStore (some ⟨1, "auth"⟩) 99 Method.get ⟨"x", none, none⟩ =
      (.fault "Post.DoesNotExist", demoStore) ∧
    add_comment demoStore (some ⟨1, "auth"⟩) 99 ⟨"x"⟩ 7 =
      (.fault "Post.DoesNotExist", demoStore) :=
  ⟨rfl, rfl, rfl, rfl, rfl⟩

/-- C4 (code bug in the repository): an unauthenticated GET of an existing
profile does not render; the handler's Follow query cannot bind an anonymous
user and a `TypeError` escapes as a server fault. -/
theorem c4_anonymous_profile_faults :
    profile demoStore none "auth" none = .fault "TypeError" := rfl

/-- C6: an unauthenticated request to any of the three mutating handlers
leaves the store untouched — in particular the Post and Comment counts — and
redirects to the login URL carrying the original path as `next`. -/
theorem c6_guest_mutations_redirect (s : Store) (pid newId now : Nat)
    (m : Method) (pf : PostFormData) (cf : CommentFormData) :
    post_create s none m pf newId now = (.redirect (loginUrl postCreateUrl), s) ∧
    post_edit s none pid m pf = (.redirect (loginUrl (postEditUrl pid)), s) ∧
    add_comment s none pid cf newId = (.redirect (loginUrl (addCommentUrl pid)), s) ∧
    (post_create s none m pf newId now).2.posts.length = s.posts.length ∧
    (add_comment s none pid cf newId).2.comments.length = s.comments.length :=
  ⟨rfl, rfl, rfl, rfl, rfl⟩

/-- C1: for an authenticated user and an author resolved from `username`,
`profile_follow` fails with `ConflictError` and creates no Follow row when
the pair already exists or the user is the author; otherwise it appends
exactly the one row `(user, author)` and redirects to the profile. -/
theorem c1_profile_follow_conflict_or_create (s : Store) (u a : User)
    (username : String) (ha : findUser s username = some a) :
    ((followExists s u.id a.id = true ∨ u.id = a.id) →
      profile_follow s (some u) username = (.fault "ConflictError", s)) ∧
    (¬ (followExists s u.id a.id = true ∨ u.id = a.id) →
      profile_follow s (some u) username =
        (.redirect (profileUrl username),
         { s with follows := s.follows ++ [⟨u.id, a.id⟩] })) := by
  constructor
  · intro h
    have hc : (u.id == a.id ||
        s.follows.any (fun g => g.user == u.id && g.author == a.id)) = true := by
      rcases h with h | h
      · simp only [followExists] at h
        simp [h]
      · simp [h]
    simp [profile_follow, ha, followSave, hc]
  · intro h
    push_neg at h
    have hc : (u.id == a.id ||
        s.follows.any (fun g => g.user == u.id && g.author == a.id)) = false := by
      have h1 : s.follows.any (fun g => g.user == u.id && g.author == a.id) = false := by
        simpa [followExists] using h.1
      have h2 : (u.id == a.id) = false := by
        simpa using h.2
      simp [h1, h2]
    simp [profile_follow, ha, followSave, hc]

/-- C1 witness: in the demo store, `auth` following `bob` appends exactly one
Follow row; repeating the follow, and `bob` following themself, both fail
with `ConflictError` and leave the store unchanged. -/
theorem c1_profile_follow_witness :
    profile_follow demoStore (some ⟨1, "auth"⟩) "bob" =
      (.redirect (profileUrl "bob"), { demoStore with follows := [⟨1, 2⟩] }) ∧
    profile_follow { demoStore with follows := [⟨1, 2⟩] } (some ⟨1, "auth"⟩) "bob" =
      (.fault "ConflictError", { demoStore with follows := [⟨1, 2⟩] }) ∧
    profile_follow demoStore (some ⟨2, "bob"⟩) "bob" =
      (.fault "ConflictError", demoStore) :=
  ⟨(c1_profile_follow_conflict_or_create demoStore ⟨1, "auth"⟩ ⟨2, "bob"⟩ "bob"
      rfl).2 (by decide),
   (c1_profile_follow_conflict_or_create { demoStore with follows := [⟨1, 2⟩] }
      ⟨1, "auth"⟩ ⟨2, "bob"⟩ "bob" rfl).1 (by decide),
   (c1_profile_follow_conflict_or_create demoStore ⟨2, "bob"⟩ ⟨2, "bob"⟩ "bob"
      rfl).1 (by decide)⟩

/-- C5: an authenticated request by anyone other than the post's author —
GET or POST, any form data — leaves the store (hence every field of the
post) unchanged and redirects to the post's detail view. -/
theorem c5_post_edit_nonauthor (s : Store) (u : User) (pid : Nat) (p : Post)
    (hp : findPost s pid = some p) (hne : p.author ≠ u.id)
    (m : Method) (form : PostFormData) :
    post_edit s (some u) pid m form = (.redirect (postDetailUrl pid), s) := by
  have hb : (p.author != u.id) = true := by simp [hne]
  simp [post_edit, hp, hb]

/-- C5 witness: a non-author POSTing new text at post 1 gets the detail
redirect and the store is unchanged. -/
theorem c5_post_edit_nonauthor_witness :
    post_edit demoStore (some ⟨2, "bob"⟩) 1 Method.post ⟨"hacked", none, none⟩ =
      (.redirect (postDetailUrl 1), demoStore) :=
  c5_post_edit_nonauthor demoStore ⟨2, "bob"⟩ 1 ⟨1, "t", 0, 1, some 1, none⟩
    rfl (by decide) Method.post ⟨"hacked", none, none⟩

/-- Filtering out the pair leaves no row matching the pair. -/
lemma any_filter_pair_eq_false (l : List Follow) (uid aid : Nat) :
    (l.filter (fun f => !(f.user == uid && f.author == aid))).any
      (fun f => f.user == uid && f.author == aid) = false := by
  rw [List.any_eq_false]
  intro f hf
  have h := (List.mem_filter.mp hf).2
  simp only [Bool.not_eq_true'] at h
  simp [h]

/-- After `profile_unfollow`, no Follow row for the pair remains. -/
lemma unfollow_removes (s : Store) (u a : User) (username : String)
    (ha : findUser s username = some a) :
    followExists (profile_unfollow s (some u) username).2 u.id a.id = false := by
  simp only [profile_unfollow, ha, followExists]
  exact any_filter_pair_eq_false s.follows u.id a.id

/-- `profile_follow` never touches the user table. -/
lemma profile_follow_users_eq (s : Store) (sess : Option User)
    (username : String) : ((profile_follow s sess username).2).users = s.users := by
  cases sess with
  | none => rfl
  | some u =>
    cases hf : findUser s username with
    | none => simp [profile_follow, hf]
    | some a =>
      by_cases hc : (u.id == a.id ||
          s.follows.any (fun g => g.user == u.id && g.author == a.id)) = true
      · simp [profile_follow, hf, followSave, hc]
      · simp [profile_follow, hf, followSave, hc]

/-- Username resolution only reads the user table. -/
lemma findUser_congr (s s2 : Store) (username : String)
    (h : s2.users = s.users) : findUser s2 username = findUser s username := by
  unfold findUser
  rw [h]

/-- C7: `profile_unfollow` always redirects — no error even when no Follow
row exists — and leaves no row for the pair, from any starting state and in
particular right after a `profile_follow`; and the profile view's
`following` flag equals the existence of the Follow row. -/
theorem c7_unfollow_idempotent_and_flag (s : Store) (u a : User)
    (username : String) (pg : Option Nat) (ha : findUser s username = some a) :
    (profile_unfollow s (some u) username).1 = .redirect (profileUrl username) ∧
    followExists (profile_unfollow s (some u) username).2 u.id a.id = false ∧
    followExists (profile_unfollow
        (profile_follow s (some u) username).2 (some u) username).2 u.id a.id = false ∧
    profile s (some u) username pg =
      .rendered ⟨a, profile_page_obj s a pg, followExists s u.id a.id⟩ := by
  refine ⟨by simp [profile_unfollow, ha], unfollow_removes s u a username ha, ?_,
    by simp [profile, ha]⟩
  apply unfollow_removes
  rw [findUser_congr _ _ _ (profile_follow_users_eq s (some u) username)]
  exact ha

/-- C7 witness: `auth` unfollowing `bob` — with no prior relation, and right
after following — and the profile flag, all evaluated in the demo store. -/
theorem c7_unfollow_witness :
    (profile_unfollow demoStore (some ⟨1, "auth"⟩) "bob").1 =
      .redirect (profileUrl "bob") ∧
    followExists (profile_unfollow demoStore (some ⟨1, "auth"⟩) "bob").2 1 2 = false ∧
    followExists (profile_unfollow
        (profile_follow demoStore (some ⟨1, "auth"⟩) "bob").2
        (some ⟨1, "auth"⟩) "bob").2 1 2 = false ∧
    profile demoStore (some ⟨1, "auth"⟩) "bob" none =
      .rendered ⟨⟨2, "bob"⟩, profile_page_obj demoStore ⟨2, "bob"⟩ none,
        followExists demoStore 1 2⟩ :=
  c7_unfollow_idempotent_and_flag demoStore ⟨1, "auth"⟩ ⟨2, "bob"⟩ "bob" none rfl

/-- A post list in newest-first order: each element's `pub_date` is at least
every later element's. -/
def SortedDesc (l : List Post) : Prop := List.Sorted pubDateGe l

/-- The explicit (and the model-default) ordering yields newest-first. -/
lemma sorted_orderByPubDateDesc (l : List Post) :
    SortedDesc (orderByPubDateDesc l) :=
  List.sorted_insertionSort pubDateGe l

/-- A page of a newest-first list is newest-first. -/
lemma sorted_get_page_obj (l : List Post) (n : Nat) (pg : Option Nat)
    (h : SortedDesc l) : SortedDesc (get_page_obj l n pg) :=
  List.Pairwise.sublist
    ((List.take_sublist _ _).trans (List.drop_sublist _ _)) h

/-- A store with two posts stored oldest-first, exercising the feed
ordering: `auth` (id 1) follows `bob` (id 2), who wrote both posts in group
`testslug`. -/
def feedStore : Store where
  users := [⟨1, "auth"⟩, ⟨2, "bob"⟩]
  groups := [⟨1, "Test group", "testslug", "d"⟩]
  posts := [⟨1, "older", 3, 2, some 1, none⟩, ⟨2, "newer", 7, 2, some 1, none⟩]
  comments := []
  follows := [⟨1, 2⟩]

/-- C8: every feed view — site, group, profile and follow — renders its
page of posts in newest-first (`pub_date` descending) order. -/
theorem c8_feeds_newest_first (s : Store) (pg : Option Nat) :
    SortedDesc (index_page_obj s pg) ∧
    (∀ slug ctx, group_posts s slug pg = .rendered ctx → SortedDesc ctx.page_obj) ∧
    (∀ sess username ctx, profile s sess username pg = .rendered ctx →
      SortedDesc ctx.page_obj) ∧
    (∀ u ctx, follow_index s (some u) pg = .rendered ctx →
      SortedDesc ctx.page_obj) := by
  refine ⟨sorted_get_page_obj _ _ _ (sorted_orderByPubDateDesc _), ?_, ?_, ?_⟩
  · intro slug ctx h
    cases hg : findGroup s slug with
    | none => rw [group_posts, hg] at h; exact Resp.noConfusion h
    | some g =>
      rw [group_posts, hg] at h
      injection h with h2
      rw [← h2]
      exact sorted_get_page_obj _ _ _ (sorted_orderByPubDateDesc _)
  · intro sess username ctx h
    cases hu : findUser s username with
    | none => rw [profile, hu] at h; exact Resp.noConfusion h
    | some a =>
      cases sess with
      | none => rw [profile, hu] at h; exact Resp.noConfusion h
      | some u =>
        rw [profile, hu] at h
        injection h with h2
        rw [← h2]
        exact sorted_get_page_obj _ _ _ (sorted_orderByPubDateDesc _)
  · intro u ctx h
    rw [follow_index] at h
    injection h with h2
    rw [← h2]
    exact sorted_get_page_obj _ _ _ (sorted_orderByPubDateDesc _)

/-- C8 witness: in the two-post store each of the four feeds renders and its
page is newest-first. -/
theorem c8_feeds_newest_first_witness :
    SortedDesc (index_page_obj feedStore none) ∧
    (∃ ctx, group_posts feedStore "testslug" none = .rendered ctx ∧
      SortedDesc ctx.page_obj) ∧
    (∃ ctx, profile feedStore (some ⟨1, "auth"⟩) "bob" none = .rendered ctx ∧
      SortedDesc ctx.page_obj) ∧
    (∃ ctx, follow_index feedStore (some ⟨1, "auth"⟩) none = .rendered ctx ∧
      SortedDesc ctx.page_obj) := by
  obtain ⟨h1, h2, h3, h4⟩ := c8_feeds_newest_first feedStore none
  exact ⟨h1, ⟨_, rfl, h2 "testslug" _ rfl⟩, ⟨_, rfl, h3 (some ⟨1, "auth"⟩) "bob" _ rfl⟩,
    ⟨_, rfl, h4 ⟨1, "auth"⟩ _ rfl⟩⟩

/-- C9 counterexample: an authenticated, empty-text comment on post 1 of the
demo store creates no Comment row — but the handler answers with a redirect
to the detail page, not with a re-rendered form carrying the validation
error. -/
theorem c9_empty_comment_counterexample :
    (add_comment demoStore (some ⟨1, "auth"⟩) 1 ⟨""⟩ 7).2 = demoStore ∧
    (add_comment demoStore (some ⟨1, "auth"⟩) 1 ⟨""⟩ 7).1 =
      .redirect (postDetailUrl 1) ∧
    (add_comment demoStore (some ⟨1, "auth"⟩) 1 ⟨""⟩ 7).1 ≠ .rendered () :=
  ⟨rfl, rfl, by decide⟩

/-- C9 amended: an authenticated comment whose form fails validation —
empty text — creates no Comment row and is answered with a redirect to the
post's detail view, never a server fault; the failure is not re-displayed
on a form. -/
theorem c9_empty_comment_no_row (s : Store) (u : User) (pid : Nat) (p : Post)
    (hp : findPost s pid = some p) (f : CommentFormData)
    (hf : commentFormValid f = false) (newId : Nat) :
    add_comment s (some u) pid f newId = (.redirect (postDetailUrl pid), s) := by
  simp [add_comment, hp, hf]

/-- C9 amended witness: the empty comment on the demo store evaluated
through the theorem. -/
theorem c9_empty_comment_no_row_witness :
    add_comment demoStore (some ⟨1, "auth"⟩) 1 ⟨""⟩ 7 =
      (.redirect (postDetailUrl 1), demoStore) :=
  c9_empty_comment_no_row demoStore ⟨1, "auth"⟩ 1 ⟨1, "t", 0, 1, some 1, none⟩
    rfl ⟨""⟩ rfl 7

/-- A page of a list only holds the list's elements. -/
lemma mem_of_mem_get_page_obj {α : Type} {l : List α} {n : Nat}
    {pg : Option Nat} {x : α} (h : x ∈ get_page_obj l n pg) : x ∈ l :=
  ((List.take_sublist _ _).trans (List.drop_sublist _ _)).subset h

/-- A post on the rendered site feed is a post of the store. -/
lemma mem_posts_of_mem_index_page_obj {s : Store} {pg : Option Nat} {p : Post}
    (h : p ∈ index_page_obj s pg) : p ∈ s.posts := by
  have h2 := mem_of_mem_get_page_obj h
  exact (List.perm_insertionSort pubDateGe s.posts).subset h2

/-- A deleted post never reappears on a freshly computed site feed. -/
lemma not_mem_index_of_deleted (s : Store) (p : Post) (pg : Option Nat) :
    p ∉ index_page_obj (deletePost s p.id) pg := by
  intro h
  have h2 := List.mem_filter.mp (mem_posts_of_mem_index_page_obj h)
  simp at h2

/-- C10: once a request at `t0` has cached the site feed holding post `p`,
deleting `p` does not remove it from the response served to a request while
the entry is younger than 20 seconds; once the TTL has elapsed, and likewise
after a cache clear (the empty cache), the recomputed feed no longer holds
`p`. -/
theorem c10_cache_staleness (s : Store) (p : Post) (t0 t1 : Nat)
    (pg : Option Nat) (hp : p ∈ (cached_index s [] t0 pg).1)
    (ht : t1 < t0 + 20) :
    p ∈ (cached_index (deletePost s p.id) (cached_index s [] t0 pg).2 t1 pg).1 ∧
    (∀ t2, t0 + 20 ≤ t2 →
      p ∉ (cached_index (deletePost s p.id) (cached_index s [] t0 pg).2 t2 pg).1) ∧
    (∀ t3, p ∉ (cached_index (deletePost s p.id) [] t3 pg).1) := by
  have hfirst : cached_index s [] t0 pg =
      (index_page_obj s pg, [⟨pg, t0, index_page_obj s pg⟩]) := rfl
  have hlook : cacheLookup [⟨pg, t0, index_page_obj s pg⟩] pg =
      some ⟨pg, t0, index_page_obj s pg⟩ := by
    simp [cacheLookup]
  refine ⟨?_, ?_, ?_⟩
  · rw [hfirst]
    simp only [cached_index, hlook, ht, if_true]
    rw [hfirst] at hp
    exact hp
  · intro t2 h2
    rw [hfirst]
    have hnot : ¬ t2 < t0 + 20 := by omega
    simp only [cached_index, hlook, hnot, if_false]
    exact not_mem_index_of_deleted s p pg
  · intro t3
    exact not_mem_index_of_deleted s p pg

/-- C10 witness: the demo store's post cached at time 0 still renders at
time 5 after deletion; at time 30, and after a clear, it is gone. -/
theorem c10_cache_staleness_witness :
    (⟨1, "t", 0, 1, some 1, none⟩ : Post) ∈
      (cached_index (deletePost demoStore 1)
        (cached_index demoStore [] 0 none).2 5 none).1 ∧
    (⟨1, "t", 0, 1, some 1, none⟩ : Post) ∉
      (cached_index (deletePost demoStore 1)
        (cached_index demoStore [] 0 none).2 30 none).1 ∧
    (⟨1, "t", 0, 1, some 1, none⟩ : Post) ∉
      (cached_index (deletePost demoStore 1) [] 30 none).1 := by
  obtain ⟨h1, h2, h3⟩ := c10_cache_staleness demoStore ⟨1, "t", 0, 1, some 1, none⟩
    0 5 none (by decide) (by decide)
  exact ⟨h1, h2 30 (by decide), h3 30⟩

end Yatube
